import Mathlib

/-!
Verification development for the iframe messenger library
(`IframeMessenger`, its protocol predicates and its error codec).

The JavaScript source is shallowly embedded: message payloads become the
inductive `JSVal` of structured-clone-transferable values (plus the two
kinds of error objects the library constructs), the protocol predicates
`isRequest` / `isResponse` / `isEvent` and the codec functions
`toErrorPayload` / `parseErrorPayload` become Lean functions over `JSVal`,
and the dispatch methods `#messageHandler`, `#handleRequest`, `#handleEvent`
and the per-call response listener of `#receiveRequestResponse` become pure
functions returning an explicit record of their observable effects
(messages posted, handlers invoked, exceptions escaping).
-/

namespace IframeMessenger

/-- Values that can travel through `postMessage` (structured clone) in this
model, plus the error objects the library builds locally:
`errObj m` is a native `Error` with message `m` (name `"Error"`, which is
also what any cloned error of a non-standard subclass carries), and
`reqErrObj m t d` is an instance of the `RequestError` subclass with its
`type` and `data` fields. Plain objects are finite key/value lists with
distinct keys (object literals in the source never repeat a key). -/
inductive JSVal where
  | null
  | undefined
  | bool (b : Bool)
  | num (n : Int)
  | str (s : String)
  | obj (fields : List (String × JSVal))
  | errObj (message : String)
  | reqErrObj (message ty : String) (data : JSVal)

/-- A JavaScript runtime exception raised while evaluating an expression
(`TypeError` from `in` on a non-object or member access on nullish). -/
inductive JSErr where
  | typeError (message : String)
deriving DecidableEq

/-- `typeof v` for the modelled values. -/
def typeofJS : JSVal → String
  | .null => "object"
  | .undefined => "undefined"
  | .bool _ => "boolean"
  | .num _ => "number"
  | .str _ => "string"
  | .obj _ => "object"
  | .errObj _ => "object"
  | .reqErrObj _ _ _ => "object"

/-- Loose inequality against `null` (`v != null`): false exactly on `null`
and `undefined`. -/
def jsNeqNull : JSVal → Bool
  | .null => false
  | .undefined => false
  | _ => true

/-- Whether a plain-object field list carries key `k`. -/
def hasKey (fields : List (String × JSVal)) (k : String) : Bool :=
  fields.any (fun p => p.1 == k)

/-- Field lookup in a plain-object field list, `undefined` when absent. -/
def lookupD (fields : List (String × JSVal)) (k : String) : JSVal :=
  match fields with
  | [] => .undefined
  | p :: rest => if p.1 == k then p.2 else lookupD rest k

/-- The `in` operator, total version (the dispatch code only applies it
behind a `typeof v === "object"` guard). Error instances expose `name`,
`message` and `stack`; `RequestError` instances additionally expose their
`type`, `data` and `cause` fields. -/
def hasFieldB : JSVal → String → Bool
  | .obj fs, k => hasKey fs k
  | .errObj _, k => k == "name" || k == "message" || k == "stack"
  | .reqErrObj _ _ _, k =>
      k == "name" || k == "message" || k == "stack" || k == "type" ||
      k == "data" || k == "cause"
  | _, _ => false

/-- Member access `v.k`, total version: `undefined` for a missing key and
for any primitive receiver (property access on a primitive boxes it and
none of the protocol keys exist on primitive wrappers). -/
def fieldD : JSVal → String → JSVal
  | .obj fs, k => lookupD fs k
  | .errObj m, k =>
      if k == "message" then .str m else if k == "name" then .str "Error" else .undefined
  | .reqErrObj m t d, k =>
      if k == "message" then .str m
      else if k == "type" then .str t
      else if k == "data" then d
      else if k == "name" then .str "RequestError"
      else .undefined
  | _, _ => .undefined

/-- The `in` operator with JavaScript exception behaviour: applying it to a
non-object operand raises a `TypeError`. -/
def inOpE (k : String) (v : JSVal) : Except JSErr Bool :=
  match v with
  | .null => .error (.typeError "Cannot use in operator on null")
  | .undefined | .bool _ | .num _ | .str _ =>
      .error (.typeError "Cannot use in operator on a primitive")
  | v => .ok (hasFieldB v k)

/-- Member access with JavaScript exception behaviour: reading a property
of `null` or `undefined` raises a `TypeError`. -/
def memberE (v : JSVal) (k : String) : Except JSErr JSVal :=
  match v with
  | .null => .error (.typeError "Cannot read properties of null")
  | .undefined => .error (.typeError "Cannot read properties of undefined")
  | v => .ok (fieldD v k)

/-- Strict equality `v === s` of a value against a string constant. -/
def strictEqStr (v : JSVal) (s : String) : Bool :=
  match v with
  | .str t => t == s
  | _ => false

/-- Default string conversion of a value (`ToPrimitive` then `ToString`):
plain objects stringify via `Object.prototype.toString`, error objects via
`Error.prototype.toString` (`name` or `name: message`). -/
def jsToString : JSVal → String
  | .null => "null"
  | .undefined => "undefined"
  | .bool b => if b then "true" else "false"
  | .num n => toString n
  | .str s => s
  | .obj _ => "[object Object]"
  | .errObj m => if m == "" then "Error" else "Error: " ++ m
  | .reqErrObj m _ _ => if m == "" then "RequestError" else "RequestError: " ++ m

/-- Loose equality `v == s` against one of the protocol discriminant
constants. The constants are not numeric strings (`ToNumber` of any of them
is `NaN`), so numeric and boolean operands never compare equal; object
operands are converted by `ToPrimitive` to their default string form and
compared as strings. -/
def looseEqConst (v : JSVal) (s : String) : Bool :=
  match v with
  | .str t => t == s
  | .num _ => false
  | .bool _ => false
  | .null => false
  | .undefined => false
  | v => jsToString v == s

/-- Truthiness of a value (`if (v)`). -/
def truthy : JSVal → Bool
  | .null => false
  | .undefined => false
  | .bool b => b
  | .num n => n != 0
  | .str s => s != ""
  | _ => true

def messageTypeRequest : String := "IFRAME-MESSAGE-REQUEST"

def messageTypeResponse : String := "IFRAME-MESSAGE-RESPONSE"

def messageTypeEvent : String := "IFRAME-MESSAGE-EVENT"

/-- `isRequest(data)` from the source: `typeof data === "object" && data !=
null && "id" in data && "action" in data && "type" in data && data.type ===
messageTypeRequest`. -/
def isRequestB (data : JSVal) : Bool :=
  typeofJS data == "object" && jsNeqNull data &&
  hasFieldB data "id" && hasFieldB data "action" && hasFieldB data "type" &&
  strictEqStr (fieldD data "type") messageTypeRequest

/-- `isResponse(data)` from the source; note the discriminant is compared
with loose equality (`==`), unlike the other two predicates. -/
def isResponseB (data : JSVal) : Bool :=
  typeofJS data == "object" && jsNeqNull data &&
  hasFieldB data "id" && hasFieldB data "type" &&
  looseEqConst (fieldD data "type") messageTypeResponse

/-- `isEvent(data)` from the source. -/
def isEventB (data : JSVal) : Bool :=
  typeofJS data == "object" && jsNeqNull data &&
  hasFieldB data "action" && hasFieldB data "type" &&
  strictEqStr (fieldD data "type") messageTypeEvent

/-- `isRequest` evaluated under the JavaScript exception semantics: each
`in` and member access may raise, `&&` short-circuits left to right. -/
def isRequestRun (data : JSVal) : Except JSErr Bool :=
  if typeofJS data == "object" then
    if jsNeqNull data then do
      let b1 ← inOpE "id" data
      if b1 then do
        let b2 ← inOpE "action" data
        if b2 then do
          let b3 ← inOpE "type" data
          if b3 then do
            let t ← memberE data "type"
            pure (strictEqStr t messageTypeRequest)
          else pure false
        else pure false
      else pure false
    else pure false
  else pure false

/-- `isResponse` evaluated under the JavaScript exception semantics. -/
def isResponseRun (data : JSVal) : Except JSErr Bool :=
  if typeofJS data == "object" then
    if jsNeqNull data then do
      let b1 ← inOpE "id" data
      if b1 then do
        let b2 ← inOpE "type" data
        if b2 then do
          let t ← memberE data "type"
          pure (looseEqConst t messageTypeResponse)
        else pure false
      else pure false
    else pure false
  else pure false

/-- `isEvent` evaluated under the JavaScript exception semantics. -/
def isEventRun (data : JSVal) : Except JSErr Bool :=
  if typeofJS data == "object" then
    if jsNeqNull data then do
      let b1 ← inOpE "action" data
      if b1 then do
        let b2 ← inOpE "type" data
        if b2 then do
          let t ← memberE data "type"
          pure (strictEqStr t messageTypeEvent)
        else pure false
      else pure false
    else pure false
  else pure false

/-- The Request wire shape: an object with `id` and `action` keys whose
`type` key holds exactly the request discriminant string. -/
def requestShaped (v : JSVal) : Bool :=
  match v with
  | .obj fs =>
      hasKey fs "id" && hasKey fs "action" &&
      strictEqStr (lookupD fs "type") messageTypeRequest
  | _ => false

/-- The Response wire shape: an object with an `id` key whose `type` key
holds exactly the response discriminant string. -/
def responseShaped (v : JSVal) : Bool :=
  match v with
  | .obj fs =>
      hasKey fs "id" && strictEqStr (lookupD fs "type") messageTypeResponse
  | _ => false

/-- The Event wire shape: an object with an `action` key whose `type` key
holds exactly the event discriminant string. -/
def eventShaped (v : JSVal) : Bool :=
  match v with
  | .obj fs =>
      hasKey fs "action" && strictEqStr (lookupD fs "type") messageTypeEvent
  | _ => false

/-- `instanceof Error`: true for native errors and for `RequestError`
instances (the subclass). -/
def instanceofError : JSVal → Bool
  | .errObj _ => true
  | .reqErrObj _ _ _ => true
  | _ => false

/-- `toErrorPayload(error)`: a `RequestError` is flattened to a plain
object carrying its `message`, `type` and `data`; every other value passes
through unchanged. -/
def toErrorPayload (error : JSVal) : JSVal :=
  match error with
  | .reqErrObj m t d =>
      .obj [("message", .str m), ("type", .str t), ("data", d)]
  | e => e

/-- `parseErrorPayload(payload)`: an error instance is returned as-is; an
object exposing a string `message`, a string `type` and a present `data`
key is rebuilt as a `RequestError`; anything else makes the function THROW
a generic unknown-error `Error` (modelled as the `.error` branch). -/
def parseErrorPayload (payload : JSVal) : Except JSVal JSVal :=
  if instanceofError payload then .ok payload
  else if jsNeqNull payload && typeofJS payload == "object" &&
      hasFieldB payload "message" &&
      typeofJS (fieldD payload "message") == "string" &&
      hasFieldB payload "type" &&
      typeofJS (fieldD payload "type") == "string" &&
      hasFieldB payload "data" then
    .ok (.reqErrObj (jsToString (fieldD payload "message"))
          (jsToString (fieldD payload "type")) (fieldD payload "data"))
  else
    .error (.errObj "Ocorreu um erro desconhecido. Veja o console")

/-- Outcome of invoking a (possibly async) handler: the settled value of
`Promise.resolve().then(() => handler(p))`, i.e. either the value the
handler returns (or its returned promise fulfills with) or the error it
throws (or its returned promise rejects with). -/
inductive HandlerResult where
  | ok (v : JSVal)
  | thrown (e : JSVal)

/-- A handler registry (`Map` from action string to handler); `Map.get`
with a non-string key finds nothing because only strings are registered. -/
def Registry : Type := String → Option (JSVal → HandlerResult)

/-- `Map.get(k)` on a registry with an arbitrary key value. -/
def registryGet (r : Registry) (k : JSVal) : Option (JSVal → HandlerResult) :=
  match k with
  | .str a => r a
  | _ => none

/-- Observable effects of one inbound dispatch: the messages posted back to
the peer (in order), the `(action, payload)` pairs passed to request
handlers and to event handlers, and an exception escaping the dispatch, if
any. -/
structure DispatchOut where
  posted : List JSVal
  reqCalls : List (JSVal × JSVal)
  evCalls : List (JSVal × JSVal)
  thrown : Option JSVal

def DispatchOut.empty : DispatchOut := ⟨[], [], [], none⟩

/-- The response object built by `reply(payload, error)` inside
`#handleRequest` (field order as in the source). -/
def mkReply (rid payload error : JSVal) : JSVal :=
  .obj [("id", rid), ("type", .str messageTypeResponse),
        ("payload", payload), ("error", error)]

/-- The message object built by `sendRequest(action, payload)` for a fresh
correlation id (field order as in the source). -/
def sendRequestMsg (id action : String) (payload : JSVal) : JSVal :=
  .obj [("id", .str id), ("type", .str messageTypeRequest),
        ("action", .str action), ("payload", payload)]

/-- The message object built by `sendEvent(action, payload)`. -/
def sendEventMsg (action : String) (payload : JSVal) : JSVal :=
  .obj [("type", .str messageTypeEvent), ("action", .str action),
        ("payload", payload)]

/-- `#handleRequest(request, source)`: look the handler up by
`request.action`; if absent, post one error reply (payload a fresh `Error`,
error flag `true`) and invoke nothing; if present, run it once on
`request.payload` through the promise chain, posting `reply(result)` (the
`error` argument omitted, hence `undefined`) on success and
`reply(toErrorPayload(err), true)` on failure. The `.catch` at the end of
the chain means no exception escapes. -/
def handleRequest (requestHandlers : Registry) (request : JSVal) : DispatchOut :=
  let rid := fieldD request "id"
  let action := fieldD request "action"
  match registryGet requestHandlers action with
  | none =>
      { posted := [mkReply rid
          (.errObj ("Ação desconhecida: " ++ jsToString action)) (.bool true)],
        reqCalls := [], evCalls := [], thrown := none }
  | some handler =>
      let p := fieldD request "payload"
      match handler p with
      | .ok v =>
          { posted := [mkReply rid v .undefined],
            reqCalls := [(action, p)], evCalls := [], thrown := none }
      | .thrown e =>
          { posted := [mkReply rid (toErrorPayload e) (.bool true)],
            reqCalls := [(action, p)], evCalls := [], thrown := none }

/-- `#handleEvent(data)`: look the handler up by `data.action`; if absent
do nothing; if present call `handler(payload)` directly — there is no
`try`/`catch` around the call, so a thrown error escapes the method. -/
def handleEvent (eventHandlers : Registry) (data : JSVal) : DispatchOut :=
  let action := fieldD data "action"
  let payload := fieldD data "payload"
  match registryGet eventHandlers action with
  | none => DispatchOut.empty
  | some handler =>
      match handler payload with
      | .ok _ => { posted := [], reqCalls := [], evCalls := [(action, payload)], thrown := none }
      | .thrown e => { posted := [], reqCalls := [], evCalls := [(action, payload)], thrown := some e }

/-- An inbound `MessageEvent`: the sender identity (`none` models a null
source) and the structured-clone payload `data`. Window identities are
modelled as opaque naturals. -/
structure MessageEvent where
  source : Option Nat
  data : JSVal

/-- `#messageHandler(message)`: drop the message unless its source is the
bound peer; otherwise dispatch by shape — `#handleEvent` when `isEvent`,
then `#handleRequest` when `isRequest`. An exception escaping
`#handleEvent` aborts the handler body before the request check (the two
shapes are disjoint, so this matters only for the escaping exception). -/
def messageHandler (bound : Nat) (requestHandlers eventHandlers : Registry)
    (message : MessageEvent) : DispatchOut :=
  match message.source with
  | none => DispatchOut.empty
  | some s =>
      if s ≠ bound then DispatchOut.empty
      else
        let data := message.data
        let evOut := if isEventB data then handleEvent eventHandlers data
                     else DispatchOut.empty
        match evOut.thrown with
        | some _ => evOut
        | none =>
            if isRequestB data then
              let rqOut := handleRequest requestHandlers data
              { posted := evOut.posted ++ rqOut.posted,
                reqCalls := rqOut.reqCalls,
                evCalls := evOut.evCalls,
                thrown := rqOut.thrown }
            else evOut

/-- How the per-call listener of `#receiveRequestResponse` settles its
promise on one inbound message: not at all (`wait`), fulfilled with a
payload, rejected with a parsed error, or — when `parseErrorPayload`
throws inside the listener — the exception escapes the callback and the
promise is NOT settled (`threw`). -/
inductive CallbackOutcome where
  | wait
  | resolved (v : JSVal)
  | rejected (e : JSVal)
  | threw (e : JSVal)

/-- The body of the callback registered by `#receiveRequestResponse(id)`,
applied to one inbound `event.data`: act only when `isResponse(event.data)`
and `event.data.id === id`; then reject with `parseErrorPayload(payload)`
when `event.data.error` is truthy — the `reject(...)` call is skipped
entirely when `parseErrorPayload` throws — and resolve with the payload
otherwise. -/
def responseCallback (id : String) (data : JSVal) : CallbackOutcome :=
  if isResponseB data && strictEqStr (fieldD data "id") id then
    if truthy (fieldD data "error") then
      match parseErrorPayload (fieldD data "payload") with
      | .ok e => .rejected e
      | .error ex => .threw ex
    else .resolved (fieldD data "payload")
  else .wait

/-- The listener as registered on `window`: it reads nothing from the
`MessageEvent` but its `data` — in particular it never inspects the
source. -/
def responseListener (id : String) (event : MessageEvent) : CallbackOutcome :=
  responseCallback id event.data

/-- Feeding a sequence of inbound message payloads to one pending call: the
first settlement (or escaping exception) wins, later messages are ignored
(`resolve`/`reject` are single-shot and the listener is removed by the
`.finally` once the promise settles). -/
def settleFirst (id : String) (events : List JSVal) : CallbackOutcome :=
  match events with
  | [] => .wait
  | e :: rest =>
      match responseCallback id e with
      | .wait => settleFirst id rest
      | o => o

/-! ### Shared lemmas -/

lemma lookupD_of_not_hasKey (fs : List (String × JSVal)) (k : String)
    (h : hasKey fs k = false) : lookupD fs k = .undefined := by
  induction fs with
  | nil => rfl
  | cons p rest ih =>
      simp only [hasKey, List.any_cons, Bool.or_eq_false_iff] at h
      simp [lookupD, h.1, ih h.2]

lemma error_str_ne_resp (m : String) :
    ("Error: " ++ m) ≠ messageTypeResponse := by
  intro h
  have h2 := congrArg String.data h
  rw [String.data_append] at h2
  simp [messageTypeResponse] at h2

lemma reqerror_str_ne_resp (m : String) :
    ("RequestError: " ++ m) ≠ messageTypeResponse := by
  intro h
  have h2 := congrArg String.data h
  rw [String.data_append] at h2
  simp [messageTypeResponse] at h2

/-- Against the (non-numeric) response discriminant constant, the loose
equality used by `isResponse` coincides with strict equality: no modelled
non-string value stringifies to the constant. -/
lemma looseEq_resp_eq_strict (v : JSVal) :
    looseEqConst v messageTypeResponse = strictEqStr v messageTypeResponse := by
  cases v with
  | str t => rfl
  | num _ => rfl
  | bool _ => rfl
  | null => rfl
  | undefined => rfl
  | obj fs => simp [looseEqConst, jsToString, strictEqStr, messageTypeResponse]
  | errObj m =>
      simp only [looseEqConst, jsToString, strictEqStr]
      by_cases hm : m == ""
      · simp [hm, messageTypeResponse]
      · simp [hm, error_str_ne_resp m]
  | reqErrObj m t d =>
      simp only [looseEqConst, jsToString, strictEqStr]
      by_cases hm : m == ""
      · simp [hm, messageTypeResponse]
      · simp [hm, reqerror_str_ne_resp m]

lemma isRequestRun_eq (v : JSVal) : isRequestRun v = .ok (isRequestB v) := by
  cases v with
  | obj fs =>
      cases h1 : hasKey fs "id" <;> cases h2 : hasKey fs "action" <;>
        cases h3 : hasKey fs "type" <;>
        simp [isRequestRun, isRequestB, inOpE, memberE, hasFieldB, fieldD,
          typeofJS, jsNeqNull, h1, h2, h3, Bind.bind, Except.bind, pure,
          Except.pure]
  | _ => rfl

lemma isResponseRun_eq (v : JSVal) : isResponseRun v = .ok (isResponseB v) := by
  cases v with
  | obj fs =>
      cases h1 : hasKey fs "id" <;> cases h3 : hasKey fs "type" <;>
        simp [isResponseRun, isResponseB, inOpE, memberE, hasFieldB, fieldD,
          typeofJS, jsNeqNull, h1, h3, Bind.bind, Except.bind, pure,
          Except.pure]
  | _ => rfl

lemma isEventRun_eq (v : JSVal) : isEventRun v = .ok (isEventB v) := by
  cases v with
  | obj fs =>
      cases h1 : hasKey fs "action" <;> cases h3 : hasKey fs "type" <;>
        simp [isEventRun, isEventB, inOpE, memberE, hasFieldB, fieldD,
          typeofJS, jsNeqNull, h1, h3, Bind.bind, Except.bind, pure,
          Except.pure]
  | _ => rfl

lemma isRequestB_shaped (v : JSVal) : isRequestB v = requestShaped v := by
  cases v with
  | obj fs =>
      cases h3 : hasKey fs "type"
      · simp [isRequestB, requestShaped, hasFieldB, fieldD, typeofJS,
          jsNeqNull, h3, lookupD_of_not_hasKey fs "type" h3, strictEqStr]
      · simp [isRequestB, requestShaped, hasFieldB, fieldD, typeofJS,
          jsNeqNull, h3]
  | _ => rfl

lemma isResponseB_shaped (v : JSVal) : isResponseB v = responseShaped v := by
  cases v with
  | obj fs =>
      cases h3 : hasKey fs "type"
      · simp [isResponseB, responseShaped, hasFieldB, fieldD, typeofJS,
          jsNeqNull, h3, lookupD_of_not_hasKey fs "type" h3, looseEqConst,
          strictEqStr]
      · simp [isResponseB, responseShaped, hasFieldB, fieldD, typeofJS,
          jsNeqNull, h3, looseEq_resp_eq_strict]
  | _ => rfl

lemma isEventB_shaped (v : JSVal) : isEventB v = eventShaped v := by
  cases v with
  | obj fs =>
      cases h3 : hasKey fs "type"
      · simp [isEventB, eventShaped, hasFieldB, fieldD, typeofJS,
          jsNeqNull, h3, lookupD_of_not_hasKey fs "type" h3, strictEqStr]
      · simp [isEventB, eventShaped, hasFieldB, fieldD, typeofJS,
          jsNeqNull, h3]
  | _ => rfl

lemma isEventB_sendRequestMsg (rid A : String) (P : JSVal) :
    isEventB (sendRequestMsg rid A P) = false := rfl

lemma isRequestB_sendRequestMsg (rid A : String) (P : JSVal) :
    isRequestB (sendRequestMsg rid A P) = true := rfl

lemma isResponseB_mkReply (rid payload error : JSVal) :
    isResponseB (mkReply rid payload error) = true := rfl

lemma isRequestB_mkReply (rid payload error : JSVal) :
    isRequestB (mkReply rid payload error) = false := rfl

lemma isEventB_mkReply (rid payload error : JSVal) :
    isEventB (mkReply rid payload error) = false := rfl

/-- Reduction of `#messageHandler` on a message whose source is the bound
peer. -/
lemma messageHandler_bound (bound : Nat) (rh eh : Registry) (d : JSVal) :
    messageHandler bound rh eh ⟨some bound, d⟩ =
      (let evOut := if isEventB d then handleEvent eh d else DispatchOut.empty
       match evOut.thrown with
       | some _ => evOut
       | none =>
           if isRequestB d then
             let rqOut := handleRequest rh d
             { posted := evOut.posted ++ rqOut.posted,
               reqCalls := rqOut.reqCalls,
               evCalls := evOut.evCalls,
               thrown := rqOut.thrown }
           else evOut) := by
  simp [messageHandler]

/-! ### Claim theorems -/

/-- C9: for every input value (null, undefined, primitives, objects with
missing fields or a wrong discriminant, error objects), each shape
predicate evaluates without raising any JavaScript exception to a boolean,
and that boolean is exactly whether the value carries the corresponding
wire shape — in particular it is `false` for every value not shaped as the
corresponding message variant. -/
theorem shape_predicates_never_throw_and_exact (v : JSVal) :
    isRequestRun v = .ok (requestShaped v) ∧
    isResponseRun v = .ok (responseShaped v) ∧
    isEventRun v = .ok (eventShaped v) := by
  refine ⟨?_, ?_, ?_⟩
  · rw [isRequestRun_eq, isRequestB_shaped]
  · rw [isResponseRun_eq, isResponseB_shaped]
  · rw [isEventRun_eq, isEventB_shaped]

/-- C1: for every action `A` with a registered request handler `h` and
every payload `P`, an inbound Request for `A` with payload `P` (exactly the
message `sendRequest` posts under correlation id `rid`) makes the
dispatcher invoke `h` exactly once with `P`, post exactly one Response
whose payload is the value `h` returned, and the pending listener armed by
`sendRequest` resolves that caller with the same value. -/
theorem request_roundtrip_resolves (bound : Nat)
    (requestHandlers eventHandlers : Registry) (A : String)
    (h : JSVal → HandlerResult) (P v : JSVal) (rid : String)
    (hreg : requestHandlers A = some h) (hret : h P = .ok v) :
    messageHandler bound requestHandlers eventHandlers
        ⟨some bound, sendRequestMsg rid A P⟩ =
      { posted := [mkReply (.str rid) v .undefined],
        reqCalls := [(.str A, P)], evCalls := [], thrown := none } ∧
    responseListener rid ⟨some bound, mkReply (.str rid) v .undefined⟩ =
      .resolved v := by
  constructor
  · have hre : registryGet requestHandlers
        (fieldD (sendRequestMsg rid A P) "action") = some h := by
      show requestHandlers A = some h
      exact hreg
    rw [messageHandler_bound]
    simp only [isEventB_sendRequestMsg, if_false, Bool.false_eq_true,
      DispatchOut.empty, isRequestB_sendRequestMsg, if_true]
    simp only [handleRequest, hre, hret]
    have hp : fieldD (sendRequestMsg rid A P) "payload" = P := rfl
    have ha : fieldD (sendRequestMsg rid A P) "action" = .str A := rfl
    have hi : fieldD (sendRequestMsg rid A P) "id" = .str rid := rfl
    rw [hp, hret, hi, ha]
    rfl
  · simp only [responseListener, responseCallback, isResponseB_mkReply,
      Bool.true_and]
    have hid : fieldD (mkReply (.str rid) v .undefined) "id" = .str rid := rfl
    rw [hid]
    simp [strictEqStr, mkReply, fieldD, lookupD, truthy]

/-- Closed instance of C1 at a concrete action, payload and handler. -/
theorem request_roundtrip_resolves_witness :
    messageHandler 0 (fun _ => some (fun p => .ok p)) (fun _ => none)
        ⟨some 0, sendRequestMsg "r1" "act" (.num 1)⟩ =
      { posted := [mkReply (.str "r1") (.num 1) .undefined],
        reqCalls := [(.str "act", .num 1)], evCalls := [], thrown := none } ∧
    responseListener "r1" ⟨some 0, mkReply (.str "r1") (.num 1) .undefined⟩ =
      .resolved (.num 1) :=
  request_roundtrip_resolves 0 (fun _ => some (fun p => .ok p))
    (fun _ => none) "act" (fun p => .ok p) (.num 1) (.num 1) "r1" rfl rfl

lemma responseCallback_mkReply_miss (id rid : String) (p e : JSVal)
    (h : rid ≠ id) :
    responseCallback id (mkReply (.str rid) p e) = .wait := by
  have hid : fieldD (mkReply (.str rid) p e) "id" = .str rid := rfl
  simp [responseCallback, isResponseB_mkReply, hid, strictEqStr, h]

lemma responseCallback_mkReply_resolved (id : String) (p : JSVal) :
    responseCallback id (mkReply (.str id) p .undefined) = .resolved p := by
  have hid : fieldD (mkReply (.str id) p .undefined) "id" = .str id := rfl
  have herr : fieldD (mkReply (.str id) p .undefined) "error" = .undefined := rfl
  have hp : fieldD (mkReply (.str id) p .undefined) "payload" = p := rfl
  simp [responseCallback, isResponseB_mkReply, hid, herr, hp, strictEqStr,
    truthy]

/-- C2: the error codec round-trips a `RequestError{message, type, data}`
losslessly, and end to end a request handler that throws such an error
makes the dispatcher post one error Response whose payload is the encoded
triple, which the pending listener decodes back, rejecting the requester
with an error carrying the same message, type and data. -/
theorem structured_error_roundtrip (m t : String) (d : JSVal) (bound : Nat)
    (requestHandlers eventHandlers : Registry) (A : String)
    (h : JSVal → HandlerResult) (P : JSVal) (rid : String)
    (hreg : requestHandlers A = some h)
    (hthrow : h P = .thrown (.reqErrObj m t d)) :
    parseErrorPayload (toErrorPayload (.reqErrObj m t d)) =
      .ok (.reqErrObj m t d) ∧
    messageHandler bound requestHandlers eventHandlers
        ⟨some bound, sendRequestMsg rid A P⟩ =
      { posted := [mkReply (.str rid)
          (.obj [("message", .str m), ("type", .str t), ("data", d)])
          (.bool true)],
        reqCalls := [(.str A, P)], evCalls := [], thrown := none } ∧
    responseListener rid ⟨some bound, mkReply (.str rid)
        (.obj [("message", .str m), ("type", .str t), ("data", d)])
        (.bool true)⟩ =
      .rejected (.reqErrObj m t d) := by
  refine ⟨rfl, ?_, ?_⟩
  · have hre : registryGet requestHandlers
        (fieldD (sendRequestMsg rid A P) "action") = some h := by
      show requestHandlers A = some h
      exact hreg
    rw [messageHandler_bound]
    simp only [isEventB_sendRequestMsg, if_false, Bool.false_eq_true,
      DispatchOut.empty, isRequestB_sendRequestMsg, if_true]
    simp only [handleRequest, hre]
    have hp : fieldD (sendRequestMsg rid A P) "payload" = P := rfl
    rw [hp, hthrow]
    rfl
  · have hid : fieldD (mkReply (.str rid)
        (.obj [("message", .str m), ("type", .str t), ("data", d)])
        (.bool true)) "id" = .str rid := rfl
    simp only [responseListener, responseCallback, isResponseB_mkReply, hid,
      Bool.true_and, strictEqStr, beq_self_eq_true, if_true]
    rfl

/-- Closed instance of C2 at a concrete structured error and handler. -/
theorem structured_error_roundtrip_witness :
    parseErrorPayload (toErrorPayload (.reqErrObj "m" "t" .null)) =
      .ok (.reqErrObj "m" "t" .null) ∧
    messageHandler 0
        (fun _ => some (fun _ => .thrown (.reqErrObj "m" "t" .null)))
        (fun _ => none) ⟨some 0, sendRequestMsg "r1" "act" (.num 1)⟩ =
      { posted := [mkReply (.str "r1")
          (.obj [("message", .str "m"), ("type", .str "t"), ("data", .null)])
          (.bool true)],
        reqCalls := [(.str "act", .num 1)], evCalls := [], thrown := none } ∧
    responseListener "r1" ⟨some 0, mkReply (.str "r1")
        (.obj [("message", .str "m"), ("type", .str "t"), ("data", .null)])
        (.bool true)⟩ =
      .rejected (.reqErrObj "m" "t" .null) :=
  structured_error_roundtrip "m" "t" .null 0
    (fun _ => some (fun _ => .thrown (.reqErrObj "m" "t" .null)))
    (fun _ => none) "act" (fun _ => .thrown (.reqErrObj "m" "t" .null))
    (.num 1) "r1" rfl rfl

/-- C3, evaluated at the failing input: a pending call with id `r1`
receives an error Response whose payload (an object with only a `message`
key) decodes to no recognised error shape. `parseErrorPayload` THROWS the
generic unknown-error inside the listener callback, so `reject` is never
invoked: the outcome is an escaping exception (`threw`), not a rejection,
and the awaitable stays pending forever. -/
theorem undecodable_error_payload_throws_not_rejects :
    responseListener "r1" ⟨some 0,
        mkReply (.str "r1") (.obj [("message", .str "m")]) (.bool true)⟩ =
      .threw (.errObj "Ocorreu um erro desconhecido. Veja o console") := rfl

/-- C4: an inbound Request for an action with no registered request
handler makes the dispatcher post exactly one Response whose payload is a
fresh unknown-action `Error` and whose error flag is `true`; no request or
event handler is invoked, no exception escapes, and the requester's
pending listener rejects with that error. -/
theorem unknown_action_error_response (bound : Nat)
    (requestHandlers eventHandlers : Registry) (A : String) (P : JSVal)
    (rid : String) (hnone : requestHandlers A = none) :
    messageHandler bound requestHandlers eventHandlers
        ⟨some bound, sendRequestMsg rid A P⟩ =
      { posted := [mkReply (.str rid)
          (.errObj ("Ação desconhecida: " ++ A)) (.bool true)],
        reqCalls := [], evCalls := [], thrown := none } ∧
    fieldD (mkReply (.str rid) (.errObj ("Ação desconhecida: " ++ A))
        (.bool true)) "error" = .bool true ∧
    responseListener rid ⟨some bound, mkReply (.str rid)
        (.errObj ("Ação desconhecida: " ++ A)) (.bool true)⟩ =
      .rejected (.errObj ("Ação desconhecida: " ++ A)) := by
  refine ⟨?_, rfl, ?_⟩
  · have hre : registryGet requestHandlers
        (fieldD (sendRequestMsg rid A P) "action") = none := by
      show requestHandlers A = none
      exact hnone
    rw [messageHandler_bound]
    simp only [isEventB_sendRequestMsg, if_false, Bool.false_eq_true,
      DispatchOut.empty, isRequestB_sendRequestMsg, if_true]
    simp only [handleRequest, hre]
    rfl
  · have hid : fieldD (mkReply (.str rid)
        (.errObj ("Ação desconhecida: " ++ A)) (.bool true)) "id" =
        .str rid := rfl
    simp only [responseListener, responseCallback, isResponseB_mkReply, hid,
      Bool.true_and, strictEqStr, beq_self_eq_true, if_true]
    rfl

/-- Closed instance of C4 with an empty request-handler registry. -/
theorem unknown_action_error_response_witness :
    messageHandler 0 (fun _ => none) (fun _ => none)
        ⟨some 0, sendRequestMsg "r1" "missing" .null⟩ =
      { posted := [mkReply (.str "r1")
          (.errObj ("Ação desconhecida: " ++ "missing")) (.bool true)],
        reqCalls := [], evCalls := [], thrown := none } ∧
    fieldD (mkReply (.str "r1") (.errObj ("Ação desconhecida: " ++ "missing"))
        (.bool true)) "error" = .bool true ∧
    responseListener "r1" ⟨some 0, mkReply (.str "r1")
        (.errObj ("Ação desconhecida: " ++ "missing")) (.bool true)⟩ =
      .rejected (.errObj ("Ação desconhecida: " ++ "missing")) :=
  unknown_action_error_response 0 (fun _ => none) (fun _ => none)
    "missing" .null "r1" rfl

/-- C5, evaluated at the failing input: an inbound Event from the bound
peer whose registered handler throws. `#handleEvent` calls the handler
with no `try`/`catch`, so the exception escapes the whole inbound dispatch
path (`thrown = some boom`) instead of being caught and logged. -/
theorem event_handler_throw_escapes :
    messageHandler 0 (fun _ => none)
        (fun a => if a == "evt" then
            some (fun _ => .thrown (.errObj "boom")) else none)
        ⟨some 0, sendEventMsg "evt" .null⟩ =
      { posted := [], reqCalls := [], evCalls := [(.str "evt", .null)],
        thrown := some (.errObj "boom") } := by
  rw [messageHandler_bound]
  rfl

/-- C6, counterexample: on a successful handler the code calls
`reply(response)` with the `error` argument omitted, so the posted Response
carries `undefined` in its `error` field — not the boolean `false` the
claim requires. -/
theorem success_reply_error_field_not_false :
    (handleRequest (fun _ => some (fun p => .ok p))
        (sendRequestMsg "r1" "act" (.num 7))).posted =
      [mkReply (.str "r1") (.num 7) .undefined] ∧
    fieldD (mkReply (.str "r1") (.num 7) .undefined) "error" = .undefined ∧
    JSVal.undefined ≠ JSVal.bool false :=
  ⟨rfl, rfl, fun hc => JSVal.noConfusion hc⟩

/-- C6 as amended: for every inbound Request whose registered handler
succeeds, the Response sent back carries `undefined` (not the boolean
`false`) in its `error` field, because the success path omits the `error`
argument of `reply`; the field is falsy, so the requester still resolves
with the payload. -/
theorem success_reply_error_field_undefined (requestHandlers : Registry)
    (A : String) (h : JSVal → HandlerResult) (P v : JSVal) (rid : String)
    (hreg : requestHandlers A = some h) (hret : h P = .ok v) :
    (handleRequest requestHandlers (sendRequestMsg rid A P)).posted =
      [mkReply (.str rid) v .undefined] ∧
    fieldD (mkReply (.str rid) v .undefined) "error" = .undefined ∧
    responseCallback rid (mkReply (.str rid) v .undefined) = .resolved v := by
  refine ⟨?_, rfl, responseCallback_mkReply_resolved rid v⟩
  have hre : registryGet requestHandlers
      (fieldD (sendRequestMsg rid A P) "action") = some h := by
    show requestHandlers A = some h
    exact hreg
  simp only [handleRequest, hre]
  have hp : fieldD (sendRequestMsg rid A P) "payload" = P := rfl
  rw [hp, hret]
  rfl

/-- Closed instance of the amended C6. -/
theorem success_reply_error_field_undefined_witness :
    (handleRequest (fun _ => some (fun _ => .ok (.str "out")))
        (sendRequestMsg "r2" "act" .null)).posted =
      [mkReply (.str "r2") (.str "out") .undefined] ∧
    fieldD (mkReply (.str "r2") (.str "out") .undefined) "error" = .undefined ∧
    responseCallback "r2" (mkReply (.str "r2") (.str "out") .undefined) =
      .resolved (.str "out") :=
  success_reply_error_field_undefined
    (fun _ => some (fun _ => .ok (.str "out"))) "act"
    (fun _ => .ok (.str "out")) .null (.str "out") "r2" rfl rfl

/-- C7, counterexample: with peer `0` bound and handlers registered, a
structurally valid Response arriving from the foreign source `99` is
ignored by the dispatcher, yet the per-call listener of a pending
`sendRequest` with the matching id `p1` never inspects the source and
settles the awaitable with the foreign payload. -/
theorem foreign_response_settles_pending :
    messageHandler 0 (fun _ => some (fun p => .ok p))
        (fun _ => some (fun p => .ok p))
        ⟨some 99, mkReply (.str "p1") (.str "v") .undefined⟩ =
      DispatchOut.empty ∧
    responseListener "p1" ⟨some 99, mkReply (.str "p1") (.str "v") .undefined⟩ =
      .resolved (.str "v") :=
  ⟨rfl, responseCallback_mkReply_resolved "p1" (.str "v")⟩

/-- C7 as amended: the inbound dispatcher ignores every message whose
source is null or differs from the bound peer — no handler is invoked, no
Response is posted, nothing escapes — but the per-call response listeners
read only `event.data`, never the source, so a pending awaitable can be
settled by a matching Response from any source. -/
theorem foreign_messages_ignored_by_dispatcher_only (bound s : Nat)
    (rh eh : Registry) (d : JSVal) (hs : s ≠ bound) :
    messageHandler bound rh eh ⟨some s, d⟩ = DispatchOut.empty ∧
    messageHandler bound rh eh ⟨none, d⟩ = DispatchOut.empty ∧
    (∀ id s1 s2 dd, responseListener id ⟨s1, dd⟩ =
      responseListener id ⟨s2, dd⟩) := by
  refine ⟨?_, rfl, fun id s1 s2 dd => rfl⟩
  simp [messageHandler, hs]

/-- Closed instance of the amended C7. -/
theorem foreign_messages_ignored_by_dispatcher_only_witness :
    messageHandler 0 (fun _ => some (fun p => .ok p)) (fun _ => none)
        ⟨some 99, sendRequestMsg "r1" "act" .null⟩ = DispatchOut.empty ∧
    messageHandler 0 (fun _ => some (fun p => .ok p)) (fun _ => none)
        ⟨none, sendRequestMsg "r1" "act" .null⟩ = DispatchOut.empty ∧
    (∀ id s1 s2 dd, responseListener id ⟨s1, dd⟩ =
      responseListener id ⟨s2, dd⟩) :=
  foreign_messages_ignored_by_dispatcher_only 0 99
    (fun _ => some (fun p => .ok p)) (fun _ => none)
    (sendRequestMsg "r1" "act" .null) (by decide)

/-- C8: two pending calls with distinct correlation ids, each answered by
a Response bearing its own id, settle each with their own payload whichever
of the two arrival orders occurs. -/
theorem concurrent_requests_settle_by_id (id1 id2 : String) (p1 p2 : JSVal)
    (hne : id1 ≠ id2) :
    settleFirst id1 [mkReply (.str id1) p1 .undefined,
        mkReply (.str id2) p2 .undefined] = .resolved p1 ∧
    settleFirst id1 [mkReply (.str id2) p2 .undefined,
        mkReply (.str id1) p1 .undefined] = .resolved p1 ∧
    settleFirst id2 [mkReply (.str id1) p1 .undefined,
        mkReply (.str id2) p2 .undefined] = .resolved p2 ∧
    settleFirst id2 [mkReply (.str id2) p2 .undefined,
        mkReply (.str id1) p1 .undefined] = .resolved p2 := by
  have h12 := responseCallback_mkReply_miss id1 id2 p2 .undefined (Ne.symm hne)
  have h21 := responseCallback_mkReply_miss id2 id1 p1 .undefined hne
  refine ⟨?_, ?_, ?_, ?_⟩ <;>
    simp [settleFirst, responseCallback_mkReply_resolved, h12, h21]

/-- Closed instance of C8 at distinct concrete ids. -/
theorem concurrent_requests_settle_by_id_witness :
    settleFirst "a" [mkReply (.str "a") (.num 1) .undefined,
        mkReply (.str "b") (.num 2) .undefined] = .resolved (.num 1) ∧
    settleFirst "a" [mkReply (.str "b") (.num 2) .undefined,
        mkReply (.str "a") (.num 1) .undefined] = .resolved (.num 1) ∧
    settleFirst "b" [mkReply (.str "a") (.num 1) .undefined,
        mkReply (.str "b") (.num 2) .undefined] = .resolved (.num 2) ∧
    settleFirst "b" [mkReply (.str "b") (.num 2) .undefined,
        mkReply (.str "a") (.num 1) .undefined] = .resolved (.num 2) :=
  concurrent_requests_settle_by_id "a" "b" (.num 1) (.num 2) (by decide)

/-- C10: a matching Response settles a pending call as a rejection only
when its `error` field is truthy; when the `error` field is absent,
undefined or otherwise falsy the call resolves with the Response's
`payload` — and `isResponse` accepts a Response carrying neither an
`error` nor a `payload` field. -/
theorem response_error_truthiness (id : String) (rsp : JSVal)
    (hm : isResponseB rsp = true) (hid : fieldD rsp "id" = .str id) :
    (truthy (fieldD rsp "error") = false →
      responseCallback id rsp = .resolved (fieldD rsp "payload")) ∧
    (∀ e, responseCallback id rsp = .rejected e →
      truthy (fieldD rsp "error") = true) ∧
    isResponseB (.obj [("id", .str id),
      ("type", .str messageTypeResponse)]) = true := by
  refine ⟨?_, ?_, rfl⟩
  · intro hfalse
    simp [responseCallback, hm, hid, strictEqStr, hfalse]
  · intro e hrej
    cases htr : truthy (fieldD rsp "error") with
    | true => rfl
    | false =>
        rw [show responseCallback id rsp =
            .resolved (fieldD rsp "payload") by
          simp [responseCallback, hm, hid, strictEqStr, htr]] at hrej
        exact CallbackOutcome.noConfusion hrej

/-- Closed instance of C10 at a Response with no `error` and no `payload`
field. -/
theorem response_error_truthiness_witness :
    (truthy (fieldD (.obj [("id", .str "w"),
        ("type", .str messageTypeResponse)]) "error") = false →
      responseCallback "w" (.obj [("id", .str "w"),
        ("type", .str messageTypeResponse)]) =
        .resolved (fieldD (.obj [("id", .str "w"),
          ("type", .str messageTypeResponse)]) "payload")) ∧
    (∀ e, responseCallback "w" (.obj [("id", .str "w"),
        ("type", .str messageTypeResponse)]) = .rejected e →
      truthy (fieldD (.obj [("id", .str "w"),
        ("type", .str messageTypeResponse)]) "error") = true) ∧
    isResponseB (.obj [("id", .str "w"),
      ("type", .str messageTypeResponse)]) = true :=
  response_error_truthiness "w"
    (.obj [("id", .str "w"), ("type", .str messageTypeResponse)]) rfl rfl

end IframeMessenger
